import Mathlib

/-!
Shallow embedding of `libcloud/compute/drivers/vsphere.py`
(`VSphereNodeDriver`): canonical node model, inventory traversal,
state mapping, address classification and lifecycle operations.

Python exceptions are modelled by an explicit error type; functions that
can raise return `Except PyErr _`.  The pyvmomi client is the opaque
external collaborator: its object tree is modelled as an explicit
`Inventory` value, and remote power/clone/destroy calls are modelled as
emitted `VimCmd` values.
-/

deriving instance DecidableEq for Except

namespace VSphere

/-- Python exceptions observable in this driver's code paths. -/
inductive PyErr where
  /-- attribute access on `None` (null dereference). -/
  | attributeError
  /-- e.g. `str.join` called with the wrong number of arguments. -/
  | typeError
  /-- `socket.inet_aton` failure on a malformed / IPv6 address. -/
  | osError
  /-- indexing an empty list, e.g. `template.datastore[0]`. -/
  | indexError
  /-- a libcloud-style lookup failure error (never raised by this code;
  present so that spec statements about it can be expressed). -/
  | lookupFailure
deriving DecidableEq, Repr

/-- Canonical node states used by this driver.  Modelled from the spec:
`libcloud.compute.types.NodeState` is not under `src/`; the spec's canonical
state machine is {RUNNING, STOPPED, SUSPENDED, UNKNOWN}. -/
inductive NodeState where
  | RUNNING
  | STOPPED
  | SUSPENDED
  | UNKNOWN
deriving DecidableEq, Repr

/-- Kind tag of an inventory object met on a parent chain. -/
inductive EntityKind where
  | datacenter
  | folder
  | computeResource
  | other
deriving DecidableEq, Repr

/-- An inventory object as seen by `_get_datacenter`'s upward walk. -/
structure Entity where
  kind : EntityKind
  name : String
deriving DecidableEq, Repr

/-- `vm.summary.config` fields read by the driver. -/
structure VMConfig where
  instanceUuid : String
  name : String
  vmPathName : String
  guestFullName : String
  memorySizeMB : Nat
  numCpu : Nat
deriving DecidableEq, Repr

/-- One guest NIC (`vm.guest.net` element) with its address strings. -/
structure GuestNic where
  ipAddress : List String
deriving DecidableEq, Repr

/-- A raw provider virtual machine.  `parentChain` lists `vm.parent`,
`vm.parent.parent`, ... up to the root folder; the provider inventory is a
tree, so the chain is finite and the root's parent is `None`. -/
structure VirtualMachine where
  /-- the managed object's own `name` (used by `list_images`). -/
  objName : String
  config : VMConfig
  /-- `vm.summary.runtime.powerState`, a raw provider enum string. -/
  powerState : String
  /-- `str(vm.summary.overallStatus)`. -/
  overallStatus : String
  /-- `vm.guest.net`. -/
  guestNet : List GuestNic
  /-- `vm.datastore`, the list of datastores (named by reference). -/
  datastore : List String
  parentChain : List Entity
deriving DecidableEq, Repr

/-- A compute cluster (`vim.ClusterComputeResource`). -/
structure Cluster where
  name : String
  resourcePool : String
deriving DecidableEq, Repr

/-- A child of a datacenter's `hostFolder`: cluster, standalone host or
nested folder. -/
inductive HostEntity where
  | cluster (c : Cluster)
  | host (name : String)
  | hfolder (name : String)
deriving DecidableEq, Repr

/-- The provider `name` property, defined on every managed entity kind. -/
def HostEntity.entityName : HostEntity → String
  | .cluster c => c.name
  | .host n => n
  | .hfolder n => n

/-- A child of a datacenter's `vmFolder`: nested folder, VM, or another
entity kind (silently skipped by the traversal). -/
inductive FolderEntry where
  | folder (children : List FolderEntry)
  | vm (v : VirtualMachine)
  | otherEntry

/-- A root-level datacenter with its two top folders. -/
structure Datacenter where
  name : String
  vmFolderChildren : List FolderEntry
  hostFolderChildren : List HostEntity

/-- A direct child of the root folder. -/
inductive RootEntity where
  | datacenter (dc : Datacenter)
  | otherRoot

/-- The provider's whole object tree, as retrieved through the session. -/
structure Inventory where
  rootChildren : List RootEntity

/-- `_datacenters`: root children that are `vim.Datacenter`; all others are
ignored. -/
def _datacenters (inv : Inventory) : List Datacenter :=
  inv.rootChildren.filterMap fun
    | .datacenter dc => some dc
    | .otherRoot => none

mutual

/-- `vms_in(folder)`: recursively extract the VMs from a folder; folders are
recursed into, VMs yielded, any other child kind silently skipped. -/
def vms_in : FolderEntry → List VirtualMachine
  | .folder cs => vmsInChildren cs
  | .vm v => [v]
  | .otherEntry => []

/-- The loop body of `vms_in` over a folder's `childEntity` list. -/
def vmsInChildren : List FolderEntry → List VirtualMachine
  | [] => []
  | c :: cs => vms_in c ++ vmsInChildren cs

end

/-- `_vms`: all VMs under every datacenter's `vmFolder`; a top-level child
that is a folder is recursed into, a VM is appended, anything else skipped
(the same dispatch as `vms_in` on one entry). -/
def _vms (inv : Inventory) : List VirtualMachine :=
  vmsInChildren ((_datacenters inv).flatMap Datacenter.vmFolderChildren)

/-- `NODE_STATE_MAP`, the driver's closed provider-state table. -/
def NODE_STATE_MAP : List (String × NodeState) :=
  [("poweredOn", NodeState.RUNNING),
   ("poweredOff", NodeState.STOPPED),
   ("suspended", NodeState.SUSPENDED)]

/-- Python `str.endswith(suffix)`: the suffix's characters are a suffix of
the string's characters. -/
def pyEndsWith (s suffix : String) : Bool :=
  decide (suffix.data <:+ s.data)

/-- Python `"str" in other` containment used for the OS-type heuristic. -/
def pyContains (s sub : String) : Bool :=
  decide (sub.data <:+: s.data)

/-- Split a character list on `'.'` separators (empty groups kept). -/
def splitDots : List Char → List (List Char)
  | [] => [[]]
  | c :: rest =>
    if c = '.' then [] :: splitDots rest
    else
      match splitDots rest with
      | [] => [[c]]
      | g :: gs => (c :: g) :: gs

/-- Decimal value of a digit string. -/
def digitsVal (l : List Char) : Nat :=
  l.foldl (fun n c => n * 10 + (c.toNat - 48)) 0

/-- One dotted-quad component: nonempty decimal digits, value ≤ 255. -/
def parseOctet (l : List Char) : Option Nat :=
  if !l.isEmpty && l.all Char.isDigit then
    if digitsVal l ≤ 255 then some (digitsVal l) else none
  else none

/-- Parse a strict IPv4 dotted-quad string. -/
def parseIPv4 (s : String) : Option (Nat × Nat × Nat × Nat) :=
  match (splitDots s.data).map parseOctet with
  | [some a, some b, some c, some d] => some (a, b, c, d)
  | _ => none

/-- RFC1918 / loopback / link-local membership on the leading octets. -/
def isPrivateOctets (a b : Nat) : Bool :=
  a == 10 || (a == 172 && Nat.ble 16 b && Nat.ble b 31) ||
    (a == 192 && b == 168) || a == 127 || (a == 169 && b == 254)

/-- Modelled from the spec: `libcloud.utils.networking.is_public_subnet`
(not under `src/`).  Classifies an IPv4 dotted-quad string by
subnet-membership rules (RFC1918 + loopback + link-local = private, other
routable = public); a malformed or unparseable string — notably an IPv6
literal fed to the IPv4-oriented parser — raises `OSError`. -/
def is_public_subnet (addr : String) : Except PyErr Bool :=
  match parseIPv4 addr with
  | none => .error .osError
  | some (a, b, _, _) => .ok (!(isPrivateOctets a b))

/-- The address-classification loop of `_to_node`: append each address to
the public or private list; `except OSError: pass` skips a malformed
address and continues; any other exception would propagate. -/
def classifyIps (addrs : List String) (acc : List String × List String) :
    Except PyErr (List String × List String) :=
  match addrs with
  | [] => .ok acc
  | a :: rest =>
    match is_public_subnet a with
    | .ok true => classifyIps rest (acc.1 ++ [a], acc.2)
    | .ok false => classifyIps rest (acc.1, acc.2 ++ [a])
    | .error .osError => classifyIps rest acc
    | .error e => .error e

/-- `extra`, the node metadata bag. -/
structure NodeExtra where
  path : String
  operating_system : String
  os_type : String
  memory_MB : Nat
  cpus : Nat
  overallStatus : String
  datacenter : Entity
deriving DecidableEq, Repr

/-- The canonical `Node` record built by `_to_node`. -/
structure Node where
  id : String
  name : String
  state : NodeState
  public_ips : List String
  private_ips : List String
  extra : NodeExtra
deriving DecidableEq, Repr

/-- `_get_datacenter(obj)`: walk `obj.parent`, `obj.parent.parent`, ...
until a `vim.Datacenter` is met.  If the chain is exhausted the walk has
stepped past the root: the root's parent is `None`, and `None.parent`
raises `AttributeError`. -/
def _get_datacenter : List Entity → Except PyErr Entity
  | [] => .error .attributeError
  | e :: rest =>
    if e.kind = EntityKind.datacenter then .ok e else _get_datacenter rest

/-- `_to_node(vm)`: build the canonical Node from a raw VM: resolve the
owning datacenter, copy config metadata, map the power state through
`NODE_STATE_MAP` with default `UNKNOWN`, and classify every guest address
as public or private. -/
def _to_node (vm : VirtualMachine) : Except PyErr Node := do
  let config := vm.config
  let datacenter ← _get_datacenter vm.parentChain
  let ips ← classifyIps ((vm.guestNet.map GuestNic.ipAddress).flatten) ([], [])
  .ok
    { id := config.instanceUuid
      name := config.name
      state := (NODE_STATE_MAP.lookup vm.powerState).getD NodeState.UNKNOWN
      public_ips := ips.1
      private_ips := ips.2
      extra :=
        { path := config.vmPathName
          operating_system := config.guestFullName
          os_type := if pyContains config.guestFullName "Microsoft"
                     then "windows" else "unix"
          memory_MB := config.memorySizeMB
          cpus := config.numCpu
          overallStatus := vm.overallStatus
          datacenter := datacenter } }

/-- The canonical `NodeLocation` record. -/
structure NodeLocation where
  id : String
  name : String
deriving DecidableEq, Repr

/-- The canonical `NodeImage` record. -/
structure NodeImage where
  id : String
  name : String
deriving DecidableEq, Repr

/-- `str.join` called with TWO positional arguments, exactly as the source
writes `"/".join(dc.name, cl.name)`.  Python's `str.join` takes exactly one
argument (an iterable), so this call raises `TypeError` unconditionally. -/
def strJoinTwoArgs (sep a b : String) : Except PyErr String :=
  .error .typeError

/-- The list-comprehension loop of `list_locations` over the
(datacenter name, hostFolder-child name) pairs, propagating the first
exception raised while building a location record. -/
def locLoop : List (String × String) → Except PyErr (List NodeLocation)
  | [] => .ok []
  | p :: ps => do
    let i ← strJoinTwoArgs "/" p.1 p.2
    let rest ← locLoop ps
    .ok ({ id := i, name := p.2 } :: rest)

/-- `list_locations`: one location per (datacenter, hostFolder-child) pair
— the comprehension applies no type filter to the children — with id built
by the two-argument `join` call and name the child's name. -/
def list_locations (inv : Inventory) : Except PyErr (List NodeLocation) :=
  locLoop ((_datacenters inv).flatMap fun dc =>
    dc.hostFolderChildren.map fun cl => (dc.name, cl.entityName))

/-- The list-comprehension loop of `list_nodes`: translate each VM in
order, propagating the first exception. -/
def nodeLoop : List VirtualMachine → Except PyErr (List Node)
  | [] => .ok []
  | v :: vs => do
    let n ← _to_node v
    let rest ← nodeLoop vs
    .ok (n :: rest)

/-- `list_nodes`: translate exactly the VMs whose configured path ends with
the runnable-VM suffix `.vmx`. -/
def list_nodes (inv : Inventory) : Except PyErr (List Node) :=
  nodeLoop ((_vms inv).filter fun n => pyEndsWith n.config.vmPathName ".vmx")

/-- The `NodeImage` record built by `list_images` for one template VM. -/
def _to_image (img : VirtualMachine) : NodeImage :=
  { id := img.config.instanceUuid, name := img.objName }

/-- `list_images`: the VMs whose configured path ends with the template
suffix `.vmtx`, as image records. -/
def list_images (inv : Inventory) : List NodeImage :=
  ((_vms inv).filter fun n => pyEndsWith n.config.vmPathName ".vmtx").map
    _to_image

/-- `_get_obj_by_uuid(uuid)`: the opaque client's
`searchIndex.FindByUuid(None, uuid, vmSearch=True, instanceUuid=True)`,
whose contract is: the VM with that instance UUID, or `None` if absent. -/
def _get_obj_by_uuid (inv : Inventory) (uuid : String) :
    Option VirtualMachine :=
  (_vms inv).find? fun v => v.config.instanceUuid == uuid

/-- `_get_obj_by_name(vim.ClusterComputeResource, name)`: a recursive
container view over the whole inventory filtered to clusters, scanned for
the first exact name match; `None` if absent. -/
def _get_obj_by_name (inv : Inventory) (name : String) : Option Cluster :=
  ((_datacenters inv).flatMap fun dc =>
      dc.hostFolderChildren.filterMap fun
        | .cluster c => some c
        | _ => none).find?
    fun c => c.name == name

/-- A remote mutating call issued against the provider. -/
inductive VimCmd where
  | powerOn (uuid : String)
  | powerOff (uuid : String)
  | rebootGuest (uuid : String)
  | destroyVm (uuid : String)
deriving DecidableEq, Repr

/-- `reboot_node(node)`: resolve the VM live by the node's id, then issue
power-on when the caller's node state is the canonical STOPPED, otherwise
a guest reboot; either call on an absent (`None`) object raises
`AttributeError`.  The state test `node.state == 'stopped'` compares
against `libcloud.compute.types.NodeState`, which is not under `src/`;
modelled from the spec: the canonical state equals `'stopped'` iff it is
STOPPED.  No task is polled: the commands are issued and the call
returns. -/
def reboot_node (inv : Inventory) (node : Node) :
    Except PyErr (List VimCmd) :=
  match _get_obj_by_uuid inv node.id with
  | none => .error .attributeError
  | some n =>
    if node.state = NodeState.STOPPED then
      .ok [VimCmd.powerOn n.config.instanceUuid]
    else
      .ok [VimCmd.rebootGuest n.config.instanceUuid]

/-- `while not task.info.completeTime: pass` — `sched i` tells whether the
power-off task's `completeTime` is set when the condition is read for the
`i`-th time.  The loop gives no timeout and never gives up: it exits only
by observing a completed poll.  `fuel` bounds how many polls the model
unrolls; a run that exhausts fuel without observing completion is the
diverging busy-spin. -/
def waitLoop (sched : Nat → Bool) : Nat → Nat → Bool
  | 0, _ => false
  | fuel + 1, i => if sched i then true else waitLoop sched fuel (i + 1)

/-- Outcome of `destroy_node`: the busy-wait spins forever, an exception
propagates, or the remote calls issued, in order. -/
inductive DestroyOutcome where
  | hang
  | err (e : PyErr)
  | done (cmds : List VimCmd)
deriving DecidableEq, Repr

/-- `destroy_node(node)`: re-resolve the VM live by the node's id,
re-translate it (`node = self._to_node(n)`, so the caller's possibly-stale
state is discarded), and if the live canonical state is not STOPPED issue a
power-off and busy-wait on the task's `completeTime` before issuing the
destroy; if it is STOPPED, issue the destroy alone.  `self._to_node(None)`
on an absent object raises `AttributeError` (at `None.summary`).  The state
test `node.state != 'stopped'` is modelled like `reboot_node`'s. -/
def destroy_node (inv : Inventory) (sched : Nat → Bool) (fuel : Nat)
    (node : Node) : DestroyOutcome :=
  match _get_obj_by_uuid inv node.id with
  | none => .err .attributeError
  | some n =>
    match _to_node n with
    | .error e => .err e
    | .ok live =>
      if live.state ≠ NodeState.STOPPED then
        if waitLoop sched fuel 0 then
          .done [VimCmd.powerOff n.config.instanceUuid,
                 VimCmd.destroyVm n.config.instanceUuid]
        else
          .hang
      else
        .done [VimCmd.destroyVm n.config.instanceUuid]

/-- `vim.vm.RelocateSpec`. -/
structure RelocateSpec where
  datastore : String
  pool : String
deriving DecidableEq, Repr

/-- `vim.vm.CloneSpec`. -/
structure CloneSpec where
  location : RelocateSpec
  powerOn : Bool
deriving DecidableEq, Repr

/-- The asynchronous clone task handle returned by `template.Clone`: the
clone request's parameters, not a completed result.  The target folder is
the owning datacenter's `vmFolder`, identified here by the datacenter's
name. -/
structure CloneTask where
  folder : String
  name : String
  spec : CloneSpec
  source : String
deriving DecidableEq, Repr

/-- `create_node(name, location, clone_from)`: resolve the source template
by the image's id, its owning datacenter by the parent walk, and the
destination cluster by the location's name; build the clone specification
(datastore = the template's first datastore, pool = the cluster's resource
pool, power-on-after-clone = true) and return the clone task immediately —
no task polling.  Attribute access on an unresolved (`None`) template or
cluster raises `AttributeError`; `template.datastore[0]` on an empty list
raises `IndexError`. -/
def create_node (inv : Inventory) (name : String) (location : NodeLocation)
    (clone_from : NodeImage) : Except PyErr CloneTask :=
  match _get_obj_by_uuid inv clone_from.id with
  | none => .error .attributeError
  | some template => do
    let datacenter ← _get_datacenter template.parentChain
    match _get_obj_by_name inv location.name with
    | none => .error .attributeError
    | some cluster =>
      match template.datastore with
      | [] => .error .indexError
      | ds :: _ =>
        .ok
          { folder := datacenter.name
            name := name
            spec :=
              { location := { datastore := ds, pool := cluster.resourcePool }
                powerOn := true }
            source := template.config.instanceUuid }

/-! Spec-side characterization of the address classifier, used to compare
the classification loop against the spec's words: an address is public
when the classifier accepts it as public, private when it accepts it as
private, and excluded when it raises. -/

/-- The classifier accepts the address and calls it public. -/
def isPub (a : String) : Bool :=
  match is_public_subnet a with
  | .ok true => true
  | _ => false

/-- The classifier accepts the address and calls it private. -/
def isPriv (a : String) : Bool :=
  match is_public_subnet a with
  | .ok false => true
  | _ => false

/-- Spec-side expected public list: the well-formed public addresses, in
discovery order. -/
def specPublicOf (addrs : List String) : List String := addrs.filter isPub

/-- Spec-side expected private list: the well-formed private addresses, in
discovery order. -/
def specPrivateOf (addrs : List String) : List String := addrs.filter isPriv

/-! Concrete sample inventories used to instantiate the theorems. -/

/-- A datacenter entity as met on a parent chain. -/
def dcEntity : Entity := { kind := EntityKind.datacenter, name := "DC1" }

/-- A typical VM parent chain: a folder, then the datacenter, then root. -/
def chain1 : List Entity :=
  [{ kind := EntityKind.folder, name := "F" }, dcEntity,
   { kind := EntityKind.folder, name := "root" }]

/-- A parent chain with no datacenter at all. -/
def chainNoDc : List Entity :=
  [{ kind := EntityKind.folder, name := "F" },
   { kind := EntityKind.folder, name := "root" }]

/-- A runnable VM: path ends in `.vmx`, powered on. -/
def vmRun : VirtualMachine :=
  { objName := "app"
    config :=
      { instanceUuid := "u1", name := "app", vmPathName := "ds1 app/app.vmx"
        guestFullName := "Ubuntu Linux", memorySizeMB := 512, numCpu := 1 }
    powerState := "poweredOn", overallStatus := "green"
    guestNet := [], datastore := ["ds1"], parentChain := chain1 }

/-- A template VM: path ends in `.vmtx`, powered off, two datastores. -/
def vmTpl : VirtualMachine :=
  { objName := "base"
    config :=
      { instanceUuid := "u2", name := "base", vmPathName := "ds1 b/base.vmtx"
        guestFullName := "Ubuntu Linux", memorySizeMB := 256, numCpu := 1 }
    powerState := "poweredOff", overallStatus := "green"
    guestNet := [], datastore := ["ds1", "ds2"], parentChain := chain1 }

/-- A VM whose path matches neither suffix convention. -/
def vmOdd : VirtualMachine :=
  { objName := "odd"
    config :=
      { instanceUuid := "u3", name := "odd", vmPathName := "ds1 o/odd.vmdk"
        guestFullName := "Ubuntu Linux", memorySizeMB := 128, numCpu := 1 }
    powerState := "poweredOn", overallStatus := "green"
    guestNet := [], datastore := ["ds1"], parentChain := chain1 }

/-- A VM reporting an unrecognized, future provider power state. -/
def vmC1 : VirtualMachine :=
  { objName := "odd2"
    config :=
      { instanceUuid := "u9", name := "odd2", vmPathName := "ds1 o/odd2.vmx"
        guestFullName := "Microsoft Windows 10", memorySizeMB := 2048
        numCpu := 4 }
    powerState := "poweredExotic", overallStatus := "yellow"
    guestNet := [], datastore := ["ds1"], parentChain := chain1 }

/-- A VM with one NIC holding a private, a malformed (IPv6) and a public
address, in that order. -/
def vmC6 : VirtualMachine :=
  { objName := "net"
    config :=
      { instanceUuid := "u6", name := "net", vmPathName := "ds1 n/net.vmx"
        guestFullName := "Ubuntu Linux", memorySizeMB := 512, numCpu := 1 }
    powerState := "poweredOn", overallStatus := "green"
    guestNet := [{ ipAddress := ["10.0.0.5", "::1", "8.8.8.8"] }]
    datastore := ["ds1"], parentChain := chain1 }

/-- A powered-on VM targeted by the lifecycle operations. -/
def vmRun4 : VirtualMachine :=
  { objName := "live"
    config :=
      { instanceUuid := "u4", name := "live", vmPathName := "ds1 l/live.vmx"
        guestFullName := "Ubuntu Linux", memorySizeMB := 512, numCpu := 1 }
    powerState := "poweredOn", overallStatus := "green"
    guestNet := [], datastore := ["ds1"], parentChain := chain1 }

/-- Inventory for the partition claim: a runnable VM at top level, a
template inside a nested folder, an unmanaged VM, and a non-VM entry. -/
def invC2 : Inventory :=
  { rootChildren :=
      [RootEntity.datacenter
        { name := "DC1"
          vmFolderChildren :=
            [FolderEntry.vm vmRun,
             FolderEntry.folder [FolderEntry.vm vmTpl],
             FolderEntry.vm vmOdd,
             FolderEntry.otherEntry]
          hostFolderChildren := [] },
       RootEntity.otherRoot] }

/-- Inventory holding only the powered-on VM `vmRun4`. -/
def invC4 : Inventory :=
  { rootChildren :=
      [RootEntity.datacenter
        { name := "DC1"
          vmFolderChildren := [FolderEntry.vm vmRun4]
          hostFolderChildren := [] }] }

/-- Inventory with the template `vmTpl` and one cluster `C1`. -/
def invC5 : Inventory :=
  { rootChildren :=
      [RootEntity.datacenter
        { name := "DC1"
          vmFolderChildren := [FolderEntry.vm vmTpl]
          hostFolderChildren :=
            [HostEntity.cluster { name := "C1", resourcePool := "pool1" }] }] }

/-- An inventory with no virtual machines at all. -/
def invEmpty : Inventory :=
  { rootChildren :=
      [RootEntity.datacenter
        { name := "DC1", vmFolderChildren := [], hostFolderChildren := [] }] }

/-- The spec's end-to-end example: datacenter `DC1` holding one cluster
`C1`. -/
def invDC1C1 : Inventory :=
  { rootChildren :=
      [RootEntity.datacenter
        { name := "DC1"
          vmFolderChildren := []
          hostFolderChildren :=
            [HostEntity.cluster { name := "C1", resourcePool := "pool1" }] }] }

/-- A datacenter whose host folder holds one standalone host (not a
cluster). -/
def invHostChild : Inventory :=
  { rootChildren :=
      [RootEntity.datacenter
        { name := "DC1"
          vmFolderChildren := []
          hostFolderChildren := [HostEntity.host "H1"] }] }

/-- A datacenter whose host folder is empty. -/
def invNoHostChildren : Inventory :=
  { rootChildren :=
      [RootEntity.datacenter
        { name := "DC1", vmFolderChildren := [], hostFolderChildren := [] }] }

/-- Node metadata bag for the sample caller-side node records. -/
def extra4 : NodeExtra :=
  { path := "ds1 l/live.vmx", operating_system := "Ubuntu Linux"
    os_type := "unix", memory_MB := 512, cpus := 1
    overallStatus := "green", datacenter := dcEntity }

/-- A caller-held node record for `vmRun4` with a stale RUNNING state. -/
def nodeC4 : Node :=
  { id := "u4", name := "live", state := NodeState.RUNNING
    public_ips := [], private_ips := [], extra := extra4 }

/-- The live translation of `vmRun4`. -/
def liveC4 : Node :=
  { id := "u4", name := "live", state := NodeState.RUNNING
    public_ips := [], private_ips := [], extra := extra4 }

/-- A caller-held node record for `vmRun4` claiming state STOPPED. -/
def nodeC7 : Node :=
  { id := "u4", name := "live", state := NodeState.STOPPED
    public_ips := [], private_ips := [], extra := extra4 }

/-- A node record whose id resolves to nothing in the inventory. -/
def nodeGhost : Node :=
  { id := "zz", name := "ghost", state := NodeState.RUNNING
    public_ips := [], private_ips := [], extra := extra4 }

/-- The clone destination for the create-node claim. -/
def locationC5 : NodeLocation := { id := "DC1/C1", name := "C1" }

/-- The source image for the create-node claim. -/
def imageC5 : NodeImage := { id := "u2", name := "base" }

/-! General lemmas about the embedded operations. -/

/-- The only exception the modelled classifier raises is `OSError`. -/
theorem is_public_subnet_error (a : String) (e : PyErr)
    (h : is_public_subnet a = Except.error e) : e = PyErr.osError := by
  unfold is_public_subnet at h
  cases hp : parseIPv4 a with
  | none => rw [hp] at h; injection h with h; exact h.symm
  | some q => obtain ⟨a, b, c, d⟩ := q; rw [hp] at h; simp at h

/-- The classification loop always succeeds and returns exactly the
accepted public and private addresses appended to the accumulator, in
order. -/
theorem classifyIps_ok (addrs : List String)
    (acc : List String × List String) :
    classifyIps addrs acc =
      Except.ok (acc.1 ++ specPublicOf addrs, acc.2 ++ specPrivateOf addrs) := by
  induction addrs generalizing acc with
  | nil => simp [classifyIps, specPublicOf, specPrivateOf]
  | cons a rest ih =>
    cases h : is_public_subnet a with
    | ok b =>
      cases b
      · simp [classifyIps, h, ih, specPublicOf, specPrivateOf,
          List.filter_cons, isPub, isPriv]
      · simp [classifyIps, h, ih, specPublicOf, specPrivateOf,
          List.filter_cons, isPub, isPriv]
    | error e =>
      have he := is_public_subnet_error a e h
      subst he
      simp [classifyIps, h, ih, specPublicOf, specPrivateOf,
        List.filter_cons, isPub, isPriv]

/-- The driver's state table, written out: the three mapped provider
values, and `UNKNOWN` for everything else. -/
theorem lookup_state_table (ps : String) :
    ((NODE_STATE_MAP.lookup ps).getD NodeState.UNKNOWN) =
      (if ps = "poweredOn" then NodeState.RUNNING
       else if ps = "poweredOff" then NodeState.STOPPED
       else if ps = "suspended" then NodeState.SUSPENDED
       else NodeState.UNKNOWN) := by
  by_cases h1 : ps = "poweredOn"
  · simp [NODE_STATE_MAP, List.lookup, h1]
  · have e1 : (ps == "poweredOn") = false := beq_eq_false_iff_ne.mpr h1
    by_cases h2 : ps = "poweredOff"
    · simp [NODE_STATE_MAP, List.lookup, h1, h2, e1]
    · have e2 : (ps == "poweredOff") = false := beq_eq_false_iff_ne.mpr h2
      by_cases h3 : ps = "suspended"
      · simp [NODE_STATE_MAP, List.lookup, h1, h2, h3, e1, e2]
      · have e3 : (ps == "suspended") = false := beq_eq_false_iff_ne.mpr h3
        simp [NODE_STATE_MAP, List.lookup, h1, h2, h3, e1, e2, e3]

/-- When the datacenter walk succeeds, `_to_node` returns exactly this
record. -/
theorem _to_node_spec (vm : VirtualMachine) (dc : Entity)
    (h : _get_datacenter vm.parentChain = Except.ok dc) :
    _to_node vm = Except.ok
      { id := vm.config.instanceUuid
        name := vm.config.name
        state := (NODE_STATE_MAP.lookup vm.powerState).getD NodeState.UNKNOWN
        public_ips :=
          specPublicOf ((vm.guestNet.map GuestNic.ipAddress).flatten)
        private_ips :=
          specPrivateOf ((vm.guestNet.map GuestNic.ipAddress).flatten)
        extra :=
          { path := vm.config.vmPathName
            operating_system := vm.config.guestFullName
            os_type := if pyContains vm.config.guestFullName "Microsoft"
                       then "windows" else "unix"
            memory_MB := vm.config.memorySizeMB
            cpus := vm.config.numCpu
            overallStatus := vm.overallStatus
            datacenter := dc } } := by
  unfold _to_node
  rw [h, classifyIps_ok]
  rfl

/-- A successful translation copies the VM's instance UUID into the node
id and the configured path into the metadata bag. -/
theorem _to_node_ok_id (vm : VirtualMachine) (nd : Node)
    (h : _to_node vm = Except.ok nd) :
    nd.id = vm.config.instanceUuid ∧
    nd.extra.path = vm.config.vmPathName := by
  cases hd : _get_datacenter vm.parentChain with
  | error e =>
    unfold _to_node at h
    rw [hd] at h
    simp [Bind.bind, Except.bind] at h
  | ok dc =>
    rw [_to_node_spec vm dc hd] at h
    injection h with h
    subst h
    exact ⟨rfl, rfl⟩

/-- Membership characterization of the `list_nodes` translation loop. -/
theorem nodeLoop_mem (l : List VirtualMachine) (ns : List Node)
    (h : nodeLoop l = Except.ok ns) :
    (∀ nd ∈ ns, ∃ v ∈ l, _to_node v = Except.ok nd) ∧
    (∀ v ∈ l, ∀ nd, _to_node v = Except.ok nd → nd ∈ ns) := by
  induction l generalizing ns with
  | nil =>
    unfold nodeLoop at h
    injection h with h
    subst h
    exact ⟨by simp, by simp⟩
  | cons v vs ih =>
    unfold nodeLoop at h
    cases hv : _to_node v with
    | error e => rw [hv] at h; simp [Bind.bind, Except.bind] at h
    | ok n =>
      rw [hv] at h
      cases hr : nodeLoop vs with
      | error e => rw [hr] at h; simp [Bind.bind, Except.bind] at h
      | ok rest =>
        rw [hr] at h
        simp [Bind.bind, Except.bind] at h
        subst h
        obtain ⟨ih1, ih2⟩ := ih rest hr
        constructor
        · intro nd hnd
          rcases List.mem_cons.mp hnd with hnd | hnd
          · exact ⟨v, List.mem_cons_self v vs, hnd ▸ hv⟩
          · obtain ⟨w, hw, hww⟩ := ih1 nd hnd
            exact ⟨w, List.mem_cons_of_mem v hw, hww⟩
        · intro w hw nd hnd
          rcases List.mem_cons.mp hw with hw | hw
          · subst hw
            rw [hv] at hnd
            injection hnd with hnd
            subst hnd
            exact List.mem_cons_self n rest
          · exact List.mem_cons_of_mem n (ih2 w hw nd hnd)

/-- A path ending in the template suffix does not end in the runnable
suffix. -/
theorem vmtx_not_vmx (s : String) (h : pyEndsWith s ".vmtx" = true) :
    pyEndsWith s ".vmx" = false := by
  unfold pyEndsWith at h ⊢
  rw [decide_eq_true_eq] at h
  rw [decide_eq_false_iff_not]
  intro h2
  rcases List.suffix_or_suffix_of_suffix h2 h with h3 | h3
  · revert h3; decide
  · revert h3; decide

/-- A busy-wait on a task that never completes spins forever: it reports
no completion at any unrolling depth. -/
theorem waitLoop_never (sched : Nat → Bool) (hs : ∀ i, sched i = false) :
    ∀ fuel i, waitLoop sched fuel i = false := by
  intro fuel
  induction fuel with
  | zero => intro i; rfl
  | succ f ih => intro i; simp [waitLoop, hs, ih]

/-! Claim theorems. -/

/-- C1: for every VM whose owning datacenter resolves, `_to_node` returns
a Node (it never fails or returns an absent result on an unmapped power
state), and the canonical state follows the closed table poweredOn →
RUNNING, poweredOff → STOPPED, suspended → SUSPENDED, and every other
power-state value — including unrecognized future values — maps to
UNKNOWN. -/
theorem c1_power_state_table (vm : VirtualMachine) (dc : Entity)
    (h : _get_datacenter vm.parentChain = Except.ok dc) :
    ∃ nd : Node, _to_node vm = Except.ok nd ∧
      nd.state =
        (if vm.powerState = "poweredOn" then NodeState.RUNNING
         else if vm.powerState = "poweredOff" then NodeState.STOPPED
         else if vm.powerState = "suspended" then NodeState.SUSPENDED
         else NodeState.UNKNOWN) := by
  refine ⟨_, _to_node_spec vm dc h, ?_⟩
  exact lookup_state_table vm.powerState

/-- C1 witness: a VM reporting the unrecognized state `"poweredExotic"`
translates to a Node in state UNKNOWN. -/
theorem c1_power_state_table_witness :
    ∃ nd : Node, _to_node vmC1 = Except.ok nd ∧
      nd.state = NodeState.UNKNOWN := by
  obtain ⟨nd, h1, h2⟩ := c1_power_state_table vmC1 dcEntity (by rfl)
  exact ⟨nd, h1, by rw [h2]; rfl⟩

/-- C6: address classification of a VM's guest addresses never raises —
for any address lists it returns the accepted public and private
addresses; a malformed address (one the classifier rejects with OSError,
e.g. an IPv6 literal) is silently skipped, leaving the classification of
the remaining addresses unchanged and appearing in neither output list;
accepted addresses land in the list their classification names; and the
node translation carries exactly these two lists. -/
theorem c6_address_classification (vm : VirtualMachine) (dc : Entity)
    (hdc : _get_datacenter vm.parentChain = Except.ok dc) :
    (∃ nd : Node, _to_node vm = Except.ok nd ∧
      nd.public_ips =
        specPublicOf ((vm.guestNet.map GuestNic.ipAddress).flatten) ∧
      nd.private_ips =
        specPrivateOf ((vm.guestNet.map GuestNic.ipAddress).flatten)) ∧
    (∀ addrs acc, ∃ r, classifyIps addrs acc = Except.ok r) ∧
    (∀ a rest acc, is_public_subnet a = Except.error PyErr.osError →
      classifyIps (a :: rest) acc = classifyIps rest acc) ∧
    (∀ a addrs, is_public_subnet a = Except.error PyErr.osError →
      a ∉ specPublicOf addrs ∧ a ∉ specPrivateOf addrs) ∧
    (∀ addrs a, a ∈ addrs →
      (is_public_subnet a = Except.ok true → a ∈ specPublicOf addrs) ∧
      (is_public_subnet a = Except.ok false → a ∈ specPrivateOf addrs)) := by
  refine ⟨⟨_, _to_node_spec vm dc hdc, rfl, rfl⟩, ?_, ?_, ?_, ?_⟩
  · intro addrs acc
    exact ⟨_, classifyIps_ok addrs acc⟩
  · intro a rest acc h
    rw [classifyIps_ok, classifyIps_ok]
    simp [specPublicOf, specPrivateOf, List.filter_cons, isPub, isPriv, h]
  · intro a addrs h
    constructor
    · intro hm
      have := (List.mem_filter.mp hm).2
      simp [isPub, h] at this
    · intro hm
      have := (List.mem_filter.mp hm).2
      simp [isPriv, h] at this
  · intro addrs a ha
    constructor
    · intro h
      exact List.mem_filter.mpr ⟨ha, by simp [isPub, h]⟩
    · intro h
      exact List.mem_filter.mpr ⟨ha, by simp [isPriv, h]⟩

/-- C6 witness: a VM with addresses `10.0.0.5` (private), `::1`
(malformed for the IPv4 parser) and `8.8.8.8` (public) translates with
exactly the well-formed addresses classified and the IPv6 literal
dropped, and dropping the literal leaves the rest unchanged. -/
theorem c6_address_classification_witness :
    (∃ nd : Node, _to_node vmC6 = Except.ok nd ∧
      nd.public_ips = ["8.8.8.8"] ∧ nd.private_ips = ["10.0.0.5"]) ∧
    classifyIps ["::1", "8.8.8.8"] ([], []) =
      classifyIps ["8.8.8.8"] ([], []) := by
  obtain ⟨⟨nd, h1, h2, h3⟩, -, hskip, -, -⟩ :=
    c6_address_classification vmC6 dcEntity (by rfl)
  refine ⟨⟨nd, h1, ?_, ?_⟩, hskip "::1" ["8.8.8.8"] ([], []) (by decide)⟩
  · rw [h2]; decide
  · rw [h3]; decide

/-- C9: the upward datacenter walk terminates on every (finite, tree-
shaped) parent chain: when a Datacenter ancestor exists it returns a
Datacenter from the chain, and when the root is reached without finding
one it fails with an error (the `AttributeError` from stepping past the
root) rather than looping forever. -/
theorem c9_datacenter_walk (chain : List Entity) :
    ((∃ e ∈ chain, e.kind = EntityKind.datacenter) →
      ∃ dc, _get_datacenter chain = Except.ok dc ∧
        dc.kind = EntityKind.datacenter ∧ dc ∈ chain) ∧
    ((∀ e ∈ chain, e.kind ≠ EntityKind.datacenter) →
      _get_datacenter chain = Except.error PyErr.attributeError) := by
  induction chain with
  | nil =>
    refine ⟨?_, ?_⟩
    · rintro ⟨e, he, -⟩
      exact absurd he (List.not_mem_nil e)
    · intro
      rfl
  | cons e rest ih =>
    refine ⟨?_, ?_⟩
    · rintro ⟨f, hf, hfk⟩
      by_cases hk : e.kind = EntityKind.datacenter
      · exact ⟨e, by simp [_get_datacenter, hk], hk, List.mem_cons_self e rest⟩
      · rcases List.mem_cons.mp hf with hf | hf
        · exact absurd (hf ▸ hfk) hk
        · obtain ⟨dc, h1, h2, h3⟩ := ih.1 ⟨f, hf, hfk⟩
          exact ⟨dc, by simp [_get_datacenter, hk, h1], h2,
            List.mem_cons_of_mem e h3⟩
    · intro hall
      have hk : e.kind ≠ EntityKind.datacenter :=
        hall e (List.mem_cons_self e rest)
      have := ih.2 fun f hf => hall f (List.mem_cons_of_mem e hf)
      simp [_get_datacenter, hk, this]

/-- C2: under the inventory invariant that instance UUIDs are unique, the
suffix-based listings partition the VM universe with a third silent
bucket: a VM whose path ends in `.vmtx` yields its image record in
`list_images` and no node record with its UUID ever appears in
`list_nodes`; a VM whose path ends in `.vmx` yields its node record in
`list_nodes` (when translation of the listing succeeds) and no image
record with its UUID appears in `list_images`; a VM matching neither
suffix appears in neither listing and is never even passed to the
translators, so it causes no error. -/
theorem c2_suffix_partition (inv : Inventory)
    (hnodup : ((_vms inv).map fun v => v.config.instanceUuid).Nodup) :
    ∀ v ∈ _vms inv,
      (pyEndsWith v.config.vmPathName ".vmtx" = true →
        _to_image v ∈ list_images inv ∧
        ∀ ns, list_nodes inv = Except.ok ns →
          ∀ nd ∈ ns, nd.id ≠ v.config.instanceUuid) ∧
      (pyEndsWith v.config.vmPathName ".vmx" = true →
        (∀ img ∈ list_images inv, img.id ≠ v.config.instanceUuid) ∧
        ∀ ns, list_nodes inv = Except.ok ns →
          ∀ nd, _to_node v = Except.ok nd → nd ∈ ns) ∧
      (pyEndsWith v.config.vmPathName ".vmx" = false →
        pyEndsWith v.config.vmPathName ".vmtx" = false →
        (∀ img ∈ list_images inv, img.id ≠ v.config.instanceUuid) ∧
        (∀ ns, list_nodes inv = Except.ok ns →
          ∀ nd ∈ ns, nd.id ≠ v.config.instanceUuid) ∧
        v ∉ (_vms inv).filter (fun n => pyEndsWith n.config.vmPathName ".vmx") ∧
        v ∉ (_vms inv).filter
          (fun n => pyEndsWith n.config.vmPathName ".vmtx")) := by
  intro v hv
  refine ⟨?_, ?_, ?_⟩
  · intro htpl
    constructor
    · exact List.mem_map_of_mem _ (List.mem_filter.mpr ⟨hv, htpl⟩)
    · intro ns hns nd hnd hid
      obtain ⟨w, hw, hww⟩ := (nodeLoop_mem _ ns hns).1 nd hnd
      have hwmem := List.mem_filter.mp hw
      have hwid := (_to_node_ok_id w nd hww).1
      have : w = v :=
        List.inj_on_of_nodup_map hnodup hwmem.1 hv (hwid ▸ hid)
      subst this
      rw [vmtx_not_vmx _ htpl] at hwmem
      exact absurd hwmem.2 (by simp)
  · intro hrun
    constructor
    · intro img himg hid
      obtain ⟨w, hw, hww⟩ := List.mem_map.mp himg
      have hwmem := List.mem_filter.mp hw
      have hwid : img.id = w.config.instanceUuid := hww ▸ rfl
      have : w = v :=
        List.inj_on_of_nodup_map hnodup hwmem.1 hv (hwid ▸ hid)
      subst this
      rw [vmtx_not_vmx _ hwmem.2] at hrun
      exact absurd hrun (by simp)
    · intro ns hns nd hnd
      exact (nodeLoop_mem _ ns hns).2 v (List.mem_filter.mpr ⟨hv, hrun⟩) nd hnd
  · intro hnrun hntpl
    refine ⟨?_, ?_, ?_, ?_⟩
    · intro img himg hid
      obtain ⟨w, hw, hww⟩ := List.mem_map.mp himg
      have hwmem := List.mem_filter.mp hw
      have hwid : img.id = w.config.instanceUuid := hww ▸ rfl
      have : w = v :=
        List.inj_on_of_nodup_map hnodup hwmem.1 hv (hwid ▸ hid)
      subst this
      rw [hwmem.2] at hntpl
      exact absurd hntpl (by simp)
    · intro ns hns nd hnd hid
      obtain ⟨w, hw, hww⟩ := (nodeLoop_mem _ ns hns).1 nd hnd
      have hwmem := List.mem_filter.mp hw
      have hwid := (_to_node_ok_id w nd hww).1
      have : w = v :=
        List.inj_on_of_nodup_map hnodup hwmem.1 hv (hwid ▸ hid)
      subst this
      rw [hwmem.2] at hnrun
      exact absurd hnrun (by simp)
    · intro hmem
      rw [(List.mem_filter.mp hmem).2] at hnrun
      exact absurd hnrun (by simp)
    · intro hmem
      rw [(List.mem_filter.mp hmem).2] at hntpl
      exact absurd hntpl (by simp)

/-- C2 witness: in an inventory holding a runnable VM `u1`, a template
`u2` (inside a nested folder) and an unmanaged VM `u3`, the template's
image record is listed, no node record carries the template's UUID, and
the unmanaged VM reaches neither listing filter. -/
theorem c2_suffix_partition_witness :
    (((_vms invC2).map fun v => v.config.instanceUuid).Nodup) ∧
    _to_image vmTpl ∈ list_images invC2 ∧
    (∀ ns, list_nodes invC2 = Except.ok ns →
      ∀ nd ∈ ns, nd.id ≠ vmTpl.config.instanceUuid) ∧
    vmOdd ∉ (_vms invC2).filter
      (fun n => pyEndsWith n.config.vmPathName ".vmx") ∧
    vmOdd ∉ (_vms invC2).filter
      (fun n => pyEndsWith n.config.vmPathName ".vmtx") := by
  have hnodup : (((_vms invC2).map fun v => v.config.instanceUuid).Nodup) := by
    decide
  have htpl := (c2_suffix_partition invC2 hnodup vmTpl (by decide)).1 (by decide)
  have hodd := ((c2_suffix_partition invC2 hnodup vmOdd (by decide)).2.2
    (by decide) (by decide)).2.2
  exact ⟨hnodup, htpl.1, htpl.2, hodd.1, hodd.2⟩

/-- C9 witness: on a chain holding a datacenter the walk returns it; on a
chain of folders only, the walk fails with `AttributeError`. -/
theorem c9_datacenter_walk_witness :
    (∃ dc, _get_datacenter chain1 = Except.ok dc ∧
      dc.kind = EntityKind.datacenter ∧ dc ∈ chain1) ∧
    _get_datacenter chainNoDc = Except.error PyErr.attributeError := by
  refine ⟨(c9_datacenter_walk chain1).1 ?_, (c9_datacenter_walk chainNoDc).2 ?_⟩
  · exact ⟨dcEntity, by decide, by decide⟩
  · decide

/-- C3 counterexample: with an inventory holding no VM with UUID `zz`,
the lookup does return `none`, but `reboot_node` and `destroy_node` on a
node with that id crash with the null-dereference `AttributeError` — they
do NOT fail with a `LookupFailure` error as the claim states. -/
theorem c3_lookup_failure_counterexample :
    _get_obj_by_uuid invEmpty "zz" = none ∧
    reboot_node invEmpty nodeGhost = Except.error PyErr.attributeError ∧
    reboot_node invEmpty nodeGhost ≠ Except.error PyErr.lookupFailure ∧
    destroy_node invEmpty (fun _ => false) 0 nodeGhost =
      DestroyOutcome.err PyErr.attributeError ∧
    destroy_node invEmpty (fun _ => false) 0 nodeGhost ≠
      DestroyOutcome.err PyErr.lookupFailure := by
  refine ⟨by decide, by decide, by decide, ?_, ?_⟩
  · rfl
  · intro h
    rw [show destroy_node invEmpty (fun _ => false) 0 nodeGhost =
      DestroyOutcome.err PyErr.attributeError from rfl] at h
    injection h with h
    exact PyErr.noConfusion h

/-- C3 amended: for every UUID not present in the inventory, the lookup
returns `none`; `reboot_node` and `destroy_node` on a node with that id
then crash with the null-dereference `AttributeError` (a method call on
the absent object), not with a `LookupFailure` error. -/
theorem c3_missing_uuid_crashes (inv : Inventory) (uuid : String)
    (node : Node) (hid : node.id = uuid)
    (habsent : ∀ vm ∈ _vms inv, vm.config.instanceUuid ≠ uuid) :
    _get_obj_by_uuid inv uuid = none ∧
    reboot_node inv node = Except.error PyErr.attributeError ∧
    ∀ sched fuel, destroy_node inv sched fuel node =
      DestroyOutcome.err PyErr.attributeError := by
  have hnone : _get_obj_by_uuid inv uuid = none := by
    apply List.find?_eq_none.mpr
    intro vm hvm
    simpa using habsent vm hvm
  subst hid
  refine ⟨hnone, ?_, ?_⟩
  · unfold reboot_node
    rw [hnone]
  · intro sched fuel
    unfold destroy_node
    rw [hnone]

/-- C3 amended witness: instantiated on the empty-of-VMs inventory and
the ghost node with id `zz`. -/
theorem c3_missing_uuid_crashes_witness :
    _get_obj_by_uuid invEmpty "zz" = none ∧
    reboot_node invEmpty nodeGhost = Except.error PyErr.attributeError ∧
    ∀ sched fuel, destroy_node invEmpty sched fuel nodeGhost =
      DestroyOutcome.err PyErr.attributeError :=
  c3_missing_uuid_crashes invEmpty "zz" nodeGhost (by rfl) (by decide)

/-- C4: `destroy_node` ignores the caller's snapshot except for the id
(two nodes with the same id behave identically, so the state is the live
re-resolution); when the live canonical state is not STOPPED it issues a
power-off and busy-polls the task's completion with no timeout — if the
task never completes the call hangs forever and the destroy is never
issued, and once the poll observes completion it issues the destroy after
the power-off; when the live state is STOPPED it issues the destroy
without any power-off. -/
theorem c4_destroy_semantics (inv : Inventory) (sched : Nat → Bool)
    (fuel : Nat) (node : Node) (n : VirtualMachine) (live : Node)
    (hfind : _get_obj_by_uuid inv node.id = some n)
    (hlive : _to_node n = Except.ok live) :
    (∀ node2 : Node, node2.id = node.id →
      destroy_node inv sched fuel node2 = destroy_node inv sched fuel node) ∧
    (live.state ≠ NodeState.STOPPED →
      ((∀ i, sched i = false) →
        destroy_node inv sched fuel node = DestroyOutcome.hang) ∧
      (waitLoop sched fuel 0 = true →
        destroy_node inv sched fuel node =
          DestroyOutcome.done [VimCmd.powerOff n.config.instanceUuid,
            VimCmd.destroyVm n.config.instanceUuid])) ∧
    (live.state = NodeState.STOPPED →
      destroy_node inv sched fuel node =
        DestroyOutcome.done [VimCmd.destroyVm n.config.instanceUuid]) := by
  refine ⟨?_, ?_, ?_⟩
  · intro node2 h2
    unfold destroy_node
    rw [h2]
  · intro hstate
    constructor
    · intro hnever
      unfold destroy_node
      rw [hfind]
      dsimp only
      rw [hlive]
      simp [hstate, waitLoop_never sched hnever fuel 0]
    · intro hdone
      unfold destroy_node
      rw [hfind]
      dsimp only
      rw [hlive]
      simp [hstate, hdone]
  · intro hstate
    unfold destroy_node
    rw [hfind]
    dsimp only
    rw [hlive]
    simp [hstate]

/-- C4 witness: destroying the powered-on VM `u4` through a stale caller
record issues power-off then destroy once the task completes; with a
never-completing task the call hangs. -/
theorem c4_destroy_semantics_witness :
    _get_obj_by_uuid invC4 nodeC4.id = some vmRun4 ∧
    _to_node vmRun4 = Except.ok liveC4 ∧
    destroy_node invC4 (fun _ => true) 1 nodeC4 =
      DestroyOutcome.done [VimCmd.powerOff "u4", VimCmd.destroyVm "u4"] ∧
    destroy_node invC4 (fun _ => false) 5 nodeC4 = DestroyOutcome.hang := by
  have hfind : _get_obj_by_uuid invC4 nodeC4.id = some vmRun4 := by decide
  have hlive : _to_node vmRun4 = Except.ok liveC4 := by decide
  have h1 := c4_destroy_semantics invC4 (fun _ => true) 1 nodeC4 vmRun4 liveC4
    hfind hlive
  have h2 := c4_destroy_semantics invC4 (fun _ => false) 5 nodeC4 vmRun4 liveC4
    hfind hlive
  refine ⟨hfind, hlive, ?_, ?_⟩
  · have := (h1.2.1 (by decide)).2 (by rfl)
    exact this
  · exact (h2.2.1 (by decide)).1 (fun i => rfl)

/-- C5: `create_node` resolves the source template by the image's id and
the destination cluster by the location's name, and returns — without any
wait or poll — the asynchronous clone task whose specification targets the
template's first (primary) datastore and the cluster's resource pool with
power-on-after-clone set. -/
theorem c5_create_clone_spec (inv : Inventory) (nm : String)
    (location : NodeLocation) (clone_from : NodeImage)
    (template : VirtualMachine) (dc : Entity) (cluster : Cluster)
    (ds : String) (more : List String)
    (hfind : _get_obj_by_uuid inv clone_from.id = some template)
    (hdc : _get_datacenter template.parentChain = Except.ok dc)
    (hcl : _get_obj_by_name inv location.name = some cluster)
    (hds : template.datastore = ds :: more) :
    create_node inv nm location clone_from =
      Except.ok
        { folder := dc.name
          name := nm
          spec :=
            { location := { datastore := ds, pool := cluster.resourcePool }
              powerOn := true }
          source := template.config.instanceUuid } := by
  unfold create_node
  rw [hfind]
  dsimp only
  rw [hdc]
  simp [Bind.bind, Except.bind, hcl, hds]

/-- C5 witness: cloning from template `u2` into cluster `C1` returns a
task with datastore `ds1` (the template's first), pool `pool1` and
power-on set. -/
theorem c5_create_clone_spec_witness :
    _get_obj_by_uuid invC5 imageC5.id = some vmTpl ∧
    _get_obj_by_name invC5 locationC5.name =
      some { name := "C1", resourcePool := "pool1" } ∧
    create_node invC5 "clone1" locationC5 imageC5 =
      Except.ok
        { folder := "DC1"
          name := "clone1"
          spec :=
            { location := { datastore := "ds1", pool := "pool1" }
              powerOn := true }
          source := "u2" } := by
  refine ⟨by decide, by decide, ?_⟩
  have h := c5_create_clone_spec invC5 "clone1" locationC5 imageC5 vmTpl
    dcEntity { name := "C1", resourcePool := "pool1" } "ds1" ["ds2"]
    (by decide) (by decide) (by decide) (by decide)
  exact h

/-- C7: `reboot_node` issues a power-on command when the caller's node
record is in canonical state STOPPED, and a guest-level reboot signal in
every other state; in both cases exactly one command is issued and the
call returns without waiting on any task. -/
theorem c7_reboot_semantics (inv : Inventory) (node : Node)
    (n : VirtualMachine)
    (hfind : _get_obj_by_uuid inv node.id = some n) :
    (node.state = NodeState.STOPPED →
      reboot_node inv node = Except.ok [VimCmd.powerOn n.config.instanceUuid]) ∧
    (node.state ≠ NodeState.STOPPED →
      reboot_node inv node =
        Except.ok [VimCmd.rebootGuest n.config.instanceUuid]) := by
  constructor
  · intro hs
    unfold reboot_node
    rw [hfind]
    simp [hs]
  · intro hs
    unfold reboot_node
    rw [hfind]
    simp [hs]

/-- C7 witness: rebooting `u4` through a STOPPED caller record issues
power-on; through a RUNNING record it issues a guest reboot. -/
theorem c7_reboot_semantics_witness :
    reboot_node invC4 nodeC7 = Except.ok [VimCmd.powerOn "u4"] ∧
    reboot_node invC4 nodeC4 = Except.ok [VimCmd.rebootGuest "u4"] := by
  have h7 := c7_reboot_semantics invC4 nodeC7 vmRun4 (by decide)
  have h4 := c7_reboot_semantics invC4 nodeC4 vmRun4 (by decide)
  exact ⟨h7.1 (by decide), h4.2 (by decide)⟩

/-- C8: on the spec's own example — datacenter `DC1` holding one cluster
`C1` — `list_locations` does not return `[{id := "DC1/C1", name := "C1"}]`:
the id construction calls `str.join` with two positional arguments, which
raises `TypeError`, so the whole call fails. -/
theorem c8_locations_join_bug :
    list_locations invDC1C1 = Except.error PyErr.typeError ∧
    list_locations invDC1C1 ≠
      Except.ok [{ id := "DC1/C1", name := "C1" }] := by
  refine ⟨rfl, ?_⟩
  decide

/-- C10: `list_locations` applies no type filter to host-folder children —
a standalone (non-cluster) host child is fed to the location construction
rather than skipped, so the `join` call raises `TypeError` for it exactly
as for a cluster; with no children at all nothing is constructed and the
empty list is returned. -/
theorem c10_locations_no_type_filter :
    list_locations invHostChild = Except.error PyErr.typeError ∧
    list_locations invHostChild ≠ Except.ok [] ∧
    list_locations invNoHostChildren = Except.ok [] := by
  exact ⟨rfl, by decide, rfl⟩

end VSphere
